import Mathlib

/-! Verification of the twistedpusher connection lifecycle core.

The Python sources under src are modelled as executable Lean
definitions: JSON values as an inductive type, the event codec
(events.py) as functions over them, channel construction (channel.py)
and the client registry (client.py) as pure functions, and the coupled
Transport and Connection state machines (transport.py, connection.py)
as an explicit labelled transition system whose inputs are the
external stimuli: user start and stop, scheduler firings, endpoint
completions, and decoded wire events. -/

/-- A JSON value as produced by json.loads.  Numbers are modelled as
integers; no claim involves fractional payloads. -/
inductive Json where
  | null
  | bool (b : Bool)
  | num (n : Int)
  | str (s : String)
  | arr (xs : List Json)
  | obj (fields : List (String × Json))

/-- A Python dict with string keys, standing for the Event class of
events.py (a dict with attribute-style access).  Lookups take the last
binding so that duplicate keys behave as in a dict built by json.loads. -/
abbrev PyDict := List (String × Json)

/-- Dict lookup, last binding wins. -/
def dget (d : PyDict) (k : String) : Option Json :=
  match d with
  | [] => none
  | (k2, v) :: rest =>
    match dget rest k with
    | some v2 => some v2
    | none => if k2 = k then some v else none

/-- Dict key removal (dict.pop discards the key). -/
def ddel (d : PyDict) (k : String) : PyDict :=
  d.filter (fun p => p.1 != k)

/-- Dict assignment. -/
def dset (d : PyDict) (k : String) (v : Json) : PyDict :=
  ddel d k ++ [(k, v)]

/-- Python truthiness of a JSON value. -/
def truthy : Json → Bool
  | .null => false
  | .bool b => b
  | .num n => n != 0
  | .str s => s != ""
  | .arr xs => !xs.isEmpty
  | .obj fs => !fs.isEmpty

/-- Python str.startswith, written over the character lists so that it
evaluates by structural recursion. -/
def strStartsWith (s p : String) : Bool :=
  p.data.isPrefixOf s.data

/-- The name test of load_pusher_event, events.py line 81:
name.startswith(("pusher:", "pusher_internal:")). -/
def isPusherName (n : String) : Bool :=
  strStartsWith n "pusher:" || strStartsWith n "pusher_internal:"

/-- Kinds of Python exceptions raised by the modelled code.
BadEventNameError and BadChannelNameError subclass ValueError in
errors.py; they are kept distinct here and the subclassing is noted
where a claim depends on it. -/
inductive PyErr where
  | valueError
  | typeError
  | badEventName
  | badChannelName
  | attributeError
  | connectionError
  | notImplementedError
  deriving DecidableEq, Repr

/-- events.py serialize_pusher_event (lines 36-61), up to json.dumps:
the result is the JSON object that json.dumps would write out.  A
missing or falsy name raises BadEventNameError; falsy or missing data
is replaced by the empty string; channel is included only when truthy;
every other field is dropped. -/
def serialize_pusher_event (event : PyDict) : Except PyErr Json :=
  match dget event "name" with
  | none => .error .badEventName
  | some v =>
    if truthy v then
      let dataVal : Json :=
        match dget event "data" with
        | some d => if truthy d then d else .str ""
        | none => .str ""
      let chan : List (String × Json) :=
        match dget event "channel" with
        | some c => if truthy c then [("channel", c)] else []
        | none => []
      .ok (.obj ([("event", v), ("data", dataVal)] ++ chan))
    else .error .badEventName

/-- events.py load_pusher_event (lines 64-87) applied to the value
returned by the first json.loads.  The second json.loads, which
re-parses double-encoded control payloads, is the external library
parser and is passed in as parse; parse s = none models a ValueError
raised by json.loads.  A non-object argument makes Event(**x) raise
TypeError; a missing event key raises BadEventNameError; calling
startswith on a non-string name raises AttributeError. -/
def load_pusher_event (parse : String → Option Json) (j : Json) :
    Except PyErr PyDict :=
  match j with
  | .obj fields =>
    match dget fields "event" with
    | none => .error .badEventName
    | some v =>
      let e := dset (ddel fields "event") "name" v
      match v with
      | .str name =>
        if isPusherName name then
          match dget e "data" with
          | some (.str s) =>
            match parse s with
            | some d => .ok (dset e "data" d)
            | none => .error .valueError
          | some _ => .ok e
          | none => .ok (dset e "data" (.obj []))
        else
          match dget e "data" with
          | some _ => .ok e
          | none => .ok (dset e "data" (.obj []))
      | _ => .error .attributeError
  | _ => .error .typeError

/-- load_pusher_event including the first json.loads on the raw wire
string: an unparseable string (such as the empty string) raises
ValueError. -/
def load_pusher_event_raw (parse : String → Option Json) (raw : String) :
    Except PyErr PyDict :=
  match parse raw with
  | none => .error .valueError
  | some j => load_pusher_event parse j

/-- A concrete stand-in parser used by closed witnesses. -/
def parse0 : String → Option Json := fun _ => none

/-- Characters accepted by the character class of VALID_CHANNEL_NAME in
channel.py line 17. -/
def validChannelChar (c : Char) : Bool :=
  decide (('a' ≤ c ∧ c ≤ 'z') ∨ ('A' ≤ c ∧ c ≤ 'Z') ∨ c = '_' ∨ c = '-'
    ∨ c = '=' ∨ c = '@' ∨ c = ',' ∨ c = '.' ∨ c = ';')

/-- re.match of VALID_CHANNEL_NAME, channel.py line 109: a full match of
one or more characters from the class, where the dollar anchor in
Python also matches just before a single trailing newline. -/
def validChannelName (s : String) : Bool :=
  let cs := s.data
  let core := if cs.getLast? == some '\n' then cs.dropLast else cs
  !core.isEmpty && core.all validChannelChar

/-- The observable result of building a channel: the error raised, the
listener registry of the connection afterwards, and the listeners the
channel bound on itself. -/
structure BuildOutcome where
  error : Option PyErr
  connectionBindings : List String
  channelBindings : List String
  deriving DecidableEq, Repr

/-- Channel constructor, channel.py lines 93-114: validate the name
(BadChannelNameError before anything is bound), then bind the
subscription-succeeded listener on the channel itself and the
connected listener on the connection. -/
def Channel_init (channelName : String) (connectionBindings : List String) :
    Except PyErr (List String × List String) :=
  if validChannelName channelName then
    .ok (connectionBindings ++ ["connected"],
         ["pusher_internal:subscription_succeeded"])
  else .error .badChannelName

/-- buildChannel, channel.py lines 152-172, together with the
PrivateChannel and PresenceChannel constructors (lines 140-149): both
subclasses run the base constructor to completion and only then raise
NotImplementedError. -/
def buildChannel (channelName : String) (connectionBindings : List String) :
    BuildOutcome :=
  match Channel_init channelName connectionBindings with
  | .error e =>
    { error := some e, connectionBindings := connectionBindings,
      channelBindings := [] }
  | .ok (cb, sb) =>
    if strStartsWith channelName "presence-" || strStartsWith channelName "private-" then
      { error := some .notImplementedError, connectionBindings := cb,
        channelBindings := sb }
    else
      { error := none, connectionBindings := cb, channelBindings := sb }

/-- Connection states, connection.py CONNECTION_STATES (line 28). -/
inductive CState where
  | initialized | connecting | connected | unavailable | disconnected
  deriving DecidableEq, Repr

/-- The string name of a connection state, as used for event names. -/
def CState.name : CState → String
  | .initialized => "initialized"
  | .connecting => "connecting"
  | .connected => "connected"
  | .unavailable => "unavailable"
  | .disconnected => "disconnected"

/-- Connection.send_event, connection.py lines 152-162: hand the event
to the transport only when connected, otherwise raise ConnectionError.
The ok payload is the frame handed down to the transport. -/
def Connection_send_event (state : CState) (event : PyDict) :
    Except PyErr PyDict :=
  if state = .connected then .ok event else .error .connectionError

/-- The pusher:unsubscribe frame built by Channel.unsubscribe,
channel.py lines 134-137. -/
def unsubscribeEvent (channelName : String) : PyDict :=
  [("name", .str "pusher:unsubscribe"),
   ("data", .obj [("channel", .str channelName)])]

/-- The outcome of PusherService.unsubscribe. -/
inductive UnsubOutcome where
  | sent (frame : PyDict)
  | raised (e : PyErr)
  | warnedNotSubscribed

/-- PusherService.unsubscribe, client.py lines 96-107: look the channel
up, let it send pusher:unsubscribe through the connection, then drop
the registry entry.  A ConnectionError raised by send_event propagates
before the pop runs, so the entry stays.  The registry is a dict keyed
by name; removal is modelled by filtering the key out. -/
def PusherService_unsubscribe (channels : List String) (state : CState)
    (channelName : String) : List String × UnsubOutcome :=
  if channelName ∈ channels then
    match Connection_send_event state (unsubscribeEvent channelName) with
    | .ok frame => (channels.filter (fun c => c != channelName), .sent frame)
    | .error e => (channels, .raised e)
  else (channels, .warnedNotSubscribed)

/-- Transport states, transport.py TRANSPORT_STATES (line 20). -/
inductive TState where
  | disconnected | connecting | connected | reconnecting | disconnecting
  deriving DecidableEq, Repr

/-- An event published by the Connection or Transport EventEmitter.
Only the attributes the core attaches are modelled. -/
structure OutEvt where
  name : String
  previous : Option CState := none
  current : Option CState := none
  delay : Option Nat := none
  data : Option Json := none

/-- Observable actions of one reactor step: events emitted by the
Transport (temit) and the Connection (emit), frames written to the
protocol, protocol disconnect requests, warnings.warn calls,
stopService calls, channel-event callbacks, and uncaught exceptions
escaping into the reactor. -/
inductive Act where
  | temit (e : OutEvt)
  | emit (e : OutEvt)
  | sentFrame (name : String)
  | protoDisconnect
  | warned
  | stopped
  | channelCb (name : String)
  | raised

/-- Combined state of one Transport (transport.py) and its owning
Connection (connection.py).  Timeout objects are modelled by their
active flags; durations play no role in the untimed transition system,
where firings arrive as separate inputs.  hasProto is true between
Transport._connected and Transport._lost, while a protocol is stored
and delivering; waiting marks the deferLater inside _connect before
do_connect runs, inflight a pending endpoint.connect.  The running
flag is the twisted service flag, shared by the Connection
MultiService and its Transport child. -/
structure Sys where
  tstate : TState
  tprev : TState
  attemptCount : Nat
  attemptTimerActive : Bool
  waiting : Bool
  inflight : Bool
  hasProto : Bool
  cstate : CState
  cprev : CState
  socketId : String
  activityActive : Bool
  pongActive : Bool
  unavailActive : Bool
  running : Bool

/-- The Connection state setter, connection.py lines 172-181: when the
state changes, record prev_state and publish the state-named event
followed by state_change; an assignment of the current value does
nothing. -/
def Connection_state_set (s : Sys) (newState : CState) : Sys × List Act :=
  if newState ≠ s.cstate then
    ({ s with cstate := newState, cprev := s.cstate },
     [.emit { name := newState.name, previous := some s.cstate },
      .emit { name := "state_change", current := some newState,
              previous := some s.cstate }])
  else (s, [])

/-- The Transport state setter, transport.py lines 158-164: records
prev_state, emits nothing. -/
def Transport_state_set (s : Sys) (newState : TState) : Sys :=
  if newState ≠ s.tstate then { s with tstate := newState, tprev := s.tstate }
  else s

/-- The four transport lifecycle events of transport.py. -/
inductive TEvt where
  | startedConnecting | connected | disconnected | connectingIn (delay : Nat)

/-- The event object a transport event is emitted as. -/
def TEvt.out : TEvt → OutEvt
  | .startedConnecting => { name := "started_connecting" }
  | .connected => { name := "connected" }
  | .disconnected => { name := "disconnected" }
  | .connectingIn d => { name := "connecting_in", delay := some d }

/-- Connection._on_transport_event, connection.py lines 183-203, run
synchronously whenever the Transport emits (bind_all in __init__). -/
def Connection_on_transport_event (s : Sys) (e : TEvt) : Sys × List Act :=
  match e with
  | .startedConnecting =>
    ({ (Connection_state_set s .connecting).1 with unavailActive := true },
     (Connection_state_set s .connecting).2)
  | .connected => ({ s with activityActive := true }, [])
  | .disconnected =>
    let s2 := { s with activityActive := false, pongActive := false }
    if s2.running then Connection_state_set s2 .connecting
    else Connection_state_set s2 .disconnected
  | .connectingIn d => (s, [.emit { name := "connecting_in", delay := some d }])

/-- Transport.emit_event: record the transport event and run the bound
Connection handler at the emit point. -/
def Transport_emit (s : Sys) (e : TEvt) : Sys × List Act :=
  ((Connection_on_transport_event s e).1,
   .temit e.out :: (Connection_on_transport_event s e).2)

/-- transport.py line 110: max(1, min(MAX_RECONNECT_DELAY, 2**count))
with MAX_RECONNECT_DELAY = 10. -/
def connectWaitTime (count : Nat) : Nat := max 1 (min 10 (2 ^ count))

/-- Transport._connect, transport.py lines 103-129: allowed only from
disconnected; emit connecting_in with the computed wait, then
started_connecting when no attempt has been made yet; schedule
do_connect and increment the attempt count. -/
def Transport_connect (s : Sys) : Sys × List Act :=
  if s.tstate = .disconnected then
    let s1 := Transport_state_set s .connecting
    let w := connectWaitTime s1.attemptCount
    let r1 := if w ≠ 0 then Transport_emit s1 (.connectingIn w) else (s1, [])
    let r2 :=
      if r1.1.attemptCount = 0 then Transport_emit r1.1 .startedConnecting
      else (r1.1, [])
    ({ r2.1 with attemptCount := r2.1.attemptCount + 1, waiting := true },
     r1.2 ++ r2.2)
  else (s, [])

/-- do_connect inside Transport._connect (lines 120-124): runs when the
deferLater fires; starts the endpoint connect and the 30 second
attempt timeout (a start on an already armed Timeout is a no-op). -/
def Transport_do_connect (s : Sys) : Sys :=
  { s with waiting := false, inflight := true, attemptTimerActive := true }

/-- Transport._connected, transport.py lines 166-181: store the
protocol, reset the attempt count, stop the attempt timeout, install
the sinks and emit connected. -/
def Transport_connected (s : Sys) : Sys × List Act :=
  let s1 := Transport_state_set s .connected
  let s2 := { s1 with hasProto := true, attemptCount := 0,
                      attemptTimerActive := false }
  Transport_emit s2 .connected

/-- Transport._failed, transport.py lines 183-194: back to disconnected
and reconnect unless the previous state was disconnecting.  The
attempt timeout is not stopped here. -/
def Transport_failed (s : Sys) : Sys × List Act :=
  let old := s.tstate
  let s1 := Transport_state_set s .disconnected
  if old ≠ .disconnecting then Transport_connect s1 else (s1, [])

/-- Transport._lost, transport.py lines 196-216: the stored protocol
fired on_connection_lost; emit disconnected and reconnect unless the
previous state was disconnecting. -/
def Transport_lost (s : Sys) : Sys × List Act :=
  let old := s.tstate
  let s1 := { s with hasProto := false }
  let s2 := Transport_state_set s1 .disconnected
  let r1 := Transport_emit s2 .disconnected
  let r2 := if old ≠ .disconnecting then Transport_connect r1.1 else (r1.1, [])
  (r2.1, r1.2 ++ r2.2)

/-- Transport._disconnect, transport.py lines 131-142: mark
reconnecting while the service runs, disconnecting otherwise; from
connected ask the protocol to close, from connecting cancel the
pending attempt, whose errback runs Transport._failed synchronously. -/
def Transport_disconnect (s : Sys) : Sys × List Act :=
  let old := s.tstate
  let s1 := Transport_state_set s
    (if s.running then .reconnecting else .disconnecting)
  if old = .connected then (s1, [.protoDisconnect])
  else if old = .connecting then
    Transport_failed { s1 with waiting := false, inflight := false }
  else (s1, [])

/-- startService on the Connection MultiService: set the running flags
and let the Transport child connect. -/
def Connection_startService (s : Sys) : Sys × List Act :=
  Transport_connect { s with running := true }

/-- stopService on the Connection MultiService: clear the running flags
and run Transport._disconnect. -/
def Connection_stopService (s : Sys) : Sys × List Act :=
  ((Transport_disconnect { s with running := false }).1,
   .stopped :: (Transport_disconnect { s with running := false }).2)

/-- The keys of ERROR_CODES in connection.py lines 33-50. -/
def ERROR_CODE_KEYS : List Int :=
  [4000, 4001, 4003, 4004, 4005, 4006, 4007, 4008, 4100, 4200, 4201, 4202, 4301]

/-- Python int() applied to a JSON value: integers pass through,
booleans coerce, decimal strings parse (a non-numeric string raises
ValueError, other types TypeError; both escape the handler uncaught
and none is returned here).  Claims only exercise the integer case. -/
def pyInt : Json → Option Int
  | .num n => some n
  | .bool b => some (if b then 1 else 0)
  | .str s => s.trim.toInt?
  | _ => none

/-- Whether Connection._error (connection.py lines 234-273) reaches
stopService.  The code must be present and truthy and
int()-convertible; then the lookup in ERROR_CODES must succeed, or
failing that the message concatenation must not raise (the data needs
a string message, otherwise the KeyError or TypeError skips the rest,
only KeyError being caught by the outer handler); finally the fatal
range check applies. -/
def pusher_error_stops (data : Json) : Bool :=
  match data with
  | .obj fields =>
    match dget fields "code" with
    | none => false
    | some v =>
      if truthy v then
        match pyInt v with
        | none => false
        | some n =>
          if ERROR_CODE_KEYS.contains n then decide (4000 ≤ n ∧ n < 4100)
          else
            match dget fields "message" with
            | some (.str _) => decide (4000 ≤ n ∧ n < 4100)
            | _ => false
      else false
  | _ => false

/-- Connection._error, connection.py lines 234-273: rename the event to
error and re-emit it with its payload, then classify the code; a
fatal code in [4000, 4100) warns the user and stops the service. -/
def Connection_error (s : Sys) (data : Json) : Sys × List Act :=
  let errAct := Act.emit { name := "error", data := some data }
  if pusher_error_stops data then
    ((Connection_stopService s).1,
     errAct :: .warned :: (Connection_stopService s).2)
  else (s, [errAct])

/-- A decoded Pusher wire event as the protocol adapter delivers it to
Connection._on_event.  An event carrying a channel attribute goes to
the channel callback whatever its name; connection_established data is
reduced to the fields the handler reads (a missing socket_id raises
KeyError; the activity_timeout field only changes a timer duration,
which the untimed model does not track). -/
inductive WireEvt where
  | channelEvt (name chan : String) (data : Json)
  | established (socketIdField : Option String) (activityTimeoutField : Option Int)
  | errorEvt (data : Json)
  | ping
  | pong
  | other (name : String) (data : Json)

/-- The send path used from handlers: Connection.send_event raises
ConnectionError unless the Connection is connected (the exception
escapes into the reactor), then Transport.send_event warns unless the
transport is connected. -/
def sendFromConnection (s : Sys) (frameName : String) : List Act :=
  if s.cstate = .connected then
    if s.tstate = .connected then [.sentFrame frameName] else [.warned]
  else [.raised]

/-- Connection._on_event (connection.py lines 205-213) with the control
handlers _connected, _error, _ping, _pong (lines 215-283).  The
trailing activity_timeout.reset only re-arms an already running timer,
leaving the active flag as it is. -/
def Connection_on_event (s : Sys) (e : WireEvt) : Sys × List Act :=
  match e with
  | .channelEvt n _ _ => (s, [.channelCb n])
  | .established sidField _ =>
    let s1 := { s with unavailActive := false }
    match sidField with
    | none => (s1, [.raised])
    | some sid =>
      let s2 := { s1 with socketId := sid }
      Connection_state_set s2 .connected
  | .errorEvt data => Connection_error s data
  | .ping => (s, sendFromConnection s "pusher:pong")
  | .pong => ({ s with pongActive := false, activityActive := true }, [])
  | .other _ _ => (s, [])

/-- The keepalive closure of Connection.__init__ (lines 120-122), run
when activity_timeout fires: start pong_timeout, then send
pusher:ping, which raises ConnectionError when not connected. -/
def Connection_keepalive (s : Sys) : Sys × List Act :=
  let s1 := { s with activityActive := false, pongActive := true }
  (s1, sendFromConnection s1 "pusher:ping")

/-- External stimuli driving the system. -/
inductive Input where
  | userStart
  | userStop
  | waitElapses
  | endpointSucceeds
  | endpointFails
  | connectionLost
  | attemptTimerFires
  | activityFires
  | pongFires
  | unavailFires
  | wire (e : WireEvt)

/-- One reactor step.  A timer or completion input outside its guard is
a no-op: a cancelled DelayedCall or consumed Deferred cannot fire. -/
def step (s : Sys) (i : Input) : Sys × List Act :=
  match i with
  | .userStart => Connection_startService s
  | .userStop => Connection_stopService s
  | .waitElapses => if s.waiting then (Transport_do_connect s, []) else (s, [])
  | .endpointSucceeds =>
    if s.inflight then Transport_connected { s with inflight := false }
    else (s, [])
  | .endpointFails =>
    if s.inflight then Transport_failed { s with inflight := false }
    else (s, [])
  | .connectionLost => if s.hasProto then Transport_lost s else (s, [])
  | .attemptTimerFires =>
    if s.attemptTimerActive then
      Transport_disconnect { s with attemptTimerActive := false }
    else (s, [])
  | .activityFires =>
    if s.activityActive then Connection_keepalive s else (s, [])
  | .pongFires =>
    if s.pongActive then Transport_disconnect { s with pongActive := false }
    else (s, [])
  | .unavailFires =>
    if s.unavailActive then
      Connection_state_set { s with unavailActive := false } .unavailable
    else (s, [])
  | .wire e => if s.hasProto then Connection_on_event s e else (s, [])

/-- The state right after Connection.__init__ and Transport.__init__. -/
def init : Sys :=
  { tstate := .disconnected, tprev := .disconnected, attemptCount := 0,
    attemptTimerActive := false, waiting := false, inflight := false,
    hasProto := false, cstate := .initialized, cprev := .initialized,
    socketId := "", activityActive := false, pongActive := false,
    unavailActive := false, running := false }

/-- Run a list of inputs, accumulating the observable actions. -/
def run (s : Sys) : List Input → Sys × List Act
  | [] => (s, [])
  | i :: rest =>
    ((run (step s i).1 rest).1,
     (step s i).2 ++ (run (step s i).1 rest).2)

/-- A state of the system the reactor can actually reach. -/
def Reachable (s : Sys) : Prop := ∃ inputs, (run init inputs).1 = s

/-- Index of the first transport emission with the given name. -/
def temitIdx (n : String) : List Act → Option Nat
  | [] => none
  | .temit e :: rest =>
    if e.name = n then some 0 else (temitIdx n rest).map (· + 1)
  | _ :: rest => (temitIdx n rest).map (· + 1)

/-- The delay carried by an action when it is a connecting_in event
emitted by the Transport. -/
def delayOf : Act → Option Nat
  | .temit e => if e.name = "connecting_in" then e.delay else none
  | _ => none

/-- The delays of the connecting_in events emitted by the Transport. -/
def connectingDelays (acts : List Act) : List Nat :=
  acts.filterMap delayOf

/-- n consecutive failing connect attempts: the scheduled wait elapses,
do_connect runs, and the endpoint connect fails. -/
def failBlock : Nat → List Input
  | 0 => []
  | n + 1 => .waitElapses :: .endpointFails :: failBlock n

/-- Whether an input delivers a connection_established payload with a
non-empty socket_id (vacuously true for every other input). -/
def goodSid : Input → Bool
  | .wire (.established (some sid) _) => sid != ""
  | _ => true

/-- Connection states compatible with live connection machinery: the
states the Connection can hold from the first started_connecting on,
while not settled in disconnected. -/
def liveC (c : CState) : Prop :=
  c ≠ CState.initialized ∧ c ≠ CState.disconnected

/-- The running-independent part of the inductive invariant of the
reachable states: relations between the timers, the pending connect
attempt, the stored protocol and the two state machines. -/
structure SysInvCore (s : Sys) : Prop where
  act_live : s.activityActive = true → liveC s.cstate
  proto_live : s.hasProto = true → liveC s.cstate
  pend_live : s.waiting = true ∨ s.inflight = true → liveC s.cstate
  proto_no_pend : s.hasProto = true → s.waiting = false ∧ s.inflight = false
  proto_t : s.hasProto = true →
    s.tstate ≠ TState.connecting ∧ s.tstate ≠ TState.disconnected
  proto_count : s.hasProto = true → s.attemptCount = 0
  cdisc_count : s.cstate = CState.disconnected → s.attemptCount = 0
  conn_pend : s.tstate = TState.connecting →
    s.waiting = true ∨ s.inflight = true
  not_both : ¬ (s.waiting = true ∧ s.inflight = true)
  pend_t : s.waiting = true ∨ s.inflight = true →
    s.tstate = TState.connecting
  count_c : s.attemptCount ≠ 0 → s.cstate ≠ CState.initialized

/-- The full inductive invariant: the core plus the clauses that
mention the service running flag. -/
structure SysInv (s : Sys) extends SysInvCore s : Prop where
  stopped_proto : s.running = false → s.hasProto = true →
    s.tstate = TState.disconnecting
  pend_running : s.waiting = true ∨ s.inflight = true → s.running = true

/-- Looking up the key of the binding appended last. -/
theorem dget_append_last (l : PyDict) (k : String) (v : Json) :
    dget (l ++ [(k, v)]) k = some v := by
  induction l with
  | nil => simp [dget]
  | cons p rest ih => cases p; simp [dget, ih]

/-- Appending a binding for a different key leaves a lookup unchanged. -/
theorem dget_append_single_ne (l : PyDict) {k k2 : String} (v : Json)
    (h : k ≠ k2) : dget (l ++ [(k, v)]) k2 = dget l k2 := by
  induction l with
  | nil => simp [dget, h]
  | cons p rest ih => cases p; simp [dget, ih]

/-- Removing a different key leaves a lookup unchanged. -/
theorem dget_ddel_ne (l : PyDict) {k k2 : String} (h : k2 ≠ k) :
    dget (ddel l k) k2 = dget l k2 := by
  induction l with
  | nil => rfl
  | cons p rest ih =>
    obtain ⟨k1, v1⟩ := p
    simp only [ddel, List.filter_cons] at ih ⊢
    by_cases hk : (k1 != k) = true
    · rw [if_pos hk]
      cases hrest : dget rest k2 <;> simp [dget, hrest, ih]
    · rw [if_neg hk]
      have hk1 : k1 = k := by simpa [bne_iff_ne] using hk
      cases hrest : dget rest k2 <;>
        simp [dget, hrest, ih, hk1, Ne.symm h]

/-- Lookup of the key just set. -/
theorem dget_dset_self (l : PyDict) (k : String) (v : Json) :
    dget (dset l k v) k = some v := by
  simp [dset, dget_append_last]

/-- Setting a different key leaves a lookup unchanged. -/
theorem dget_dset_ne (l : PyDict) {k k2 : String} (v : Json) (h : k2 ≠ k) :
    dget (dset l k v) k2 = dget l k2 := by
  simp [dset, dget_append_single_ne _ _ (Ne.symm h), dget_ddel_ne _ h]

/-- C1: every assignment of a different Connection state publishes
exactly two events, first the one named after the new state with the
previous state attached, then state_change with current and previous;
assigning the current state again publishes nothing. -/
theorem connection_state_change_spec (s : Sys) (newState : CState) :
    (newState ≠ s.cstate →
      (Connection_state_set s newState).2 =
        [.emit { name := newState.name, previous := some s.cstate },
         .emit { name := "state_change", current := some newState,
                 previous := some s.cstate }] ∧
      (Connection_state_set s newState).1.cstate = newState ∧
      (Connection_state_set s newState).1.cprev = s.cstate) ∧
    (newState = s.cstate → (Connection_state_set s newState).2 = []) := by
  constructor
  · intro h
    simp [Connection_state_set, h]
  · intro h
    simp [Connection_state_set, h]

/-- Instantiation of C1 at a concrete transition and at a concrete
self-assignment. -/
theorem connection_state_change_spec_witness :
    (CState.connecting ≠ init.cstate ∧
      (Connection_state_set init .connecting).2 =
        [.emit { name := CState.connecting.name, previous := some init.cstate },
         .emit { name := "state_change", current := some CState.connecting,
                 previous := some init.cstate }] ∧
      (Connection_state_set init .connecting).1.cstate = .connecting ∧
      (Connection_state_set init .connecting).1.cprev = init.cstate) ∧
    (CState.initialized = init.cstate ∧
      (Connection_state_set init .initialized).2 = []) :=
  ⟨⟨by decide, (connection_state_change_spec init .connecting).1 (by decide)⟩,
   ⟨by decide, (connection_state_change_spec init .initialized).2 (by decide)⟩⟩

/-- The computed reconnect wait is never zero. -/
theorem connectWaitTime_ne_zero (c : Nat) : connectWaitTime c ≠ 0 := by
  have : 1 ≤ max 1 (min 10 (2 ^ c)) := le_max_left 1 _
  unfold connectWaitTime
  omega

/-- C8 (amended): within a single Transport._connect invocation that
emits both events, connecting_in is emitted strictly before
started_connecting (the source emits them in this order, the reverse
of the claim). -/
theorem connect_emits_connecting_in_first (s : Sys) (i j : Nat)
    (hc : temitIdx "connecting_in" (Transport_connect s).2 = some i)
    (hsc : temitIdx "started_connecting" (Transport_connect s).2 = some j) :
    i < j := by
  by_cases ht : s.tstate = .disconnected
  · by_cases h0 : s.attemptCount = 0
    · simp [Transport_connect, ht, Transport_state_set, Transport_emit,
        Connection_on_transport_event, TEvt.out, connectWaitTime_ne_zero,
        temitIdx, h0, Connection_state_set] at hc hsc
      omega
    · simp [Transport_connect, ht, Transport_state_set, Transport_emit,
        Connection_on_transport_event, TEvt.out, connectWaitTime_ne_zero,
        temitIdx, h0] at hc hsc
  · simp [Transport_connect, ht, temitIdx] at hc

/-- C8 (counterexample): on the very first connect after startService,
the Transport emits connecting_in at position 0 and started_connecting
at position 2 of the action trace, so started_connecting does not
precede connecting_in. -/
theorem connect_emits_connecting_in_first_counterexample :
    temitIdx "connecting_in" (run init [Input.userStart]).2 = some 0 ∧
    temitIdx "started_connecting" (run init [Input.userStart]).2 = some 2 ∧
    (0 : Nat) < 2 := by
  refine ⟨by rfl, by rfl, by omega⟩

/-- Instantiation of the amended C8 at the initial connect. -/
theorem connect_emits_connecting_in_first_witness :
    temitIdx "connecting_in" (Transport_connect init).2 = some 0 ∧
    temitIdx "started_connecting" (Transport_connect init).2 = some 2 ∧
    0 < 2 :=
  ⟨by rfl, by rfl,
   connect_emits_connecting_in_first init 0 2 (by rfl) (by rfl)⟩

/-- C9 (counterexample): unsubscribing a subscribed channel while the
Connection is disconnected raises ConnectionError from send_event and
leaves the registry entry in place, so the removal does not happen in
every Connection state. -/
theorem unsubscribe_not_connected_counterexample :
    (PusherService_unsubscribe ["x"] .disconnected "x").1 = ["x"] ∧
    (PusherService_unsubscribe ["x"] .disconnected "x").2 =
      .raised .connectionError ∧
    "x" ∈ (PusherService_unsubscribe ["x"] .disconnected "x").1 := by
  refine ⟨rfl, rfl, by decide⟩

/-- C9 (amended): for a subscribed channel name, unsubscribe sends the
pusher:unsubscribe frame through the connection and removes the
registry entry only while the Connection state is connected; in any
other state Connection.send_event raises ConnectionError and the
entry survives. -/
theorem unsubscribe_spec (channels : List String) (st : CState) (name : String)
    (hmem : name ∈ channels) :
    (st = .connected →
      PusherService_unsubscribe channels st name =
        (channels.filter (fun c => c != name),
         .sent (unsubscribeEvent name)) ∧
      name ∉ (PusherService_unsubscribe channels st name).1) ∧
    (st ≠ .connected →
      PusherService_unsubscribe channels st name =
        (channels, .raised .connectionError)) := by
  constructor
  · intro h
    constructor
    · simp [PusherService_unsubscribe, Connection_send_event, hmem, h]
    · simp [PusherService_unsubscribe, Connection_send_event, hmem, h,
        List.mem_filter]
  · intro h
    simp [PusherService_unsubscribe, Connection_send_event, hmem, h]

/-- Instantiation of the amended C9 in the connected and in a
disconnected state. -/
theorem unsubscribe_spec_witness :
    ("x" ∈ ["x", "y"] ∧
      PusherService_unsubscribe ["x", "y"] .connected "x" =
        (["x", "y"].filter (fun c => c != "x"), .sent (unsubscribeEvent "x")) ∧
      "x" ∉ (PusherService_unsubscribe ["x", "y"] .connected "x").1) ∧
    (PusherService_unsubscribe ["x", "y"] .disconnected "x" =
      (["x", "y"], .raised .connectionError)) :=
  ⟨⟨by simp, (unsubscribe_spec ["x", "y"] .connected "x" (by simp)).1 rfl⟩,
   (unsubscribe_spec ["x", "y"] .disconnected "x" (by simp)).2 (by decide)⟩

/-- C10 (counterexample): a private-prefixed name that fails the name
validation raises BadChannelNameError, not NotImplementedError, and
binds nothing on the connection, so the claim does not hold for every
presence- or private-prefixed name. -/
theorem buildChannel_counterexample :
    buildChannel "private-!" [] =
      { error := some .badChannelName, connectionBindings := [],
        channelBindings := [] } ∧
    (some PyErr.badChannelName ≠ some PyErr.notImplementedError) := by
  refine ⟨by decide, by decide⟩

/-- C10 (amended): for every presence- or private-prefixed name that
passes the channel name validation, buildChannel raises
NotImplementedError only after the base constructor has completed, so
the connected listener is left bound on the connection (and the
subscription-succeeded listener on the channel). -/
theorem buildChannel_private_presence (name : String) (conn : List String)
    (hv : validChannelName name = true)
    (hp : (strStartsWith name "presence-" || strStartsWith name "private-") = true) :
    buildChannel name conn =
      { error := some .notImplementedError,
        connectionBindings := conn ++ ["connected"],
        channelBindings := ["pusher_internal:subscription_succeeded"] } := by
  simp [buildChannel, Channel_init, hv, hp]

/-- Instantiation of the amended C10 at a valid private channel name. -/
theorem buildChannel_private_presence_witness :
    validChannelName "private-chan" = true ∧
    (strStartsWith "private-chan" "presence-"
      || strStartsWith "private-chan" "private-") = true ∧
    buildChannel "private-chan" [] =
      { error := some .notImplementedError,
        connectionBindings := ["connected"],
        channelBindings := ["pusher_internal:subscription_succeeded"] } :=
  ⟨by decide, by decide,
   buildChannel_private_presence "private-chan" [] (by decide) (by decide)⟩

/-- The computed wait equals the clamp in the order the claim states
it, because 2 ^ k is at least 1. -/
theorem connectWaitTime_eq (k : Nat) :
    connectWaitTime k = min 10 (max 1 (2 ^ k)) := by
  have h1 : 1 ≤ 2 ^ k := Nat.one_le_pow k 2 (by omega)
  unfold connectWaitTime
  omega

/-- The Connection state setter leaves the transport fields and flags
unchanged. -/
theorem state_set_preserve (s : Sys) (t : CState) :
    (Connection_state_set s t).1.tstate = s.tstate ∧
    (Connection_state_set s t).1.waiting = s.waiting ∧
    (Connection_state_set s t).1.inflight = s.inflight ∧
    (Connection_state_set s t).1.attemptCount = s.attemptCount := by
  unfold Connection_state_set
  split <;> simp

/-- The Connection state setter only ever emits, so it contributes no
transport connecting_in delays. -/
theorem connectingDelays_state_set (s : Sys) (t : CState) :
    List.filterMap delayOf (Connection_state_set s t).2 = [] := by
  unfold Connection_state_set
  split <;> simp [delayOf]

/-- Running a concatenation of inputs runs the pieces in order. -/
theorem run_append (l1 : List Input) : ∀ (s : Sys) (l2 : List Input),
    run s (l1 ++ l2) =
      ((run (run s l1).1 l2).1, (run s l1).2 ++ (run (run s l1).1 l2).2) := by
  induction l1 with
  | nil => intro s l2; simp [run]
  | cons i rest ih => intro s l2; simp [run, ih]

/-- One failing attempt from a waiting connecting state: the transport
emits exactly one connecting_in event, with the delay computed from
the current attempt count, and returns to a waiting connecting state
with the count incremented. -/
theorem fail_once (s : Sys) (h1 : s.tstate = .connecting)
    (h2 : s.waiting = true) :
    connectingDelays (run s [Input.waitElapses, Input.endpointFails]).2 =
      [connectWaitTime s.attemptCount] ∧
    (run s [Input.waitElapses, Input.endpointFails]).1.tstate = .connecting ∧
    (run s [Input.waitElapses, Input.endpointFails]).1.waiting = true ∧
    (run s [Input.waitElapses, Input.endpointFails]).1.attemptCount =
      s.attemptCount + 1 := by
  by_cases hc : s.attemptCount = 0 <;>
    simp [run, step, h1, h2, hc, Transport_do_connect, Transport_failed,
      Transport_state_set, Transport_connect, Transport_emit,
      Connection_on_transport_event, TEvt.out, connectWaitTime_ne_zero,
      connectingDelays, List.filterMap_append, List.filterMap_cons, delayOf,
      connectingDelays_state_set, state_set_preserve]

/-- Delays over n consecutive failures from a waiting connecting state:
one connecting_in per failure, doubling from the current count. -/
theorem failBlock_delays (n : Nat) : ∀ (s : Sys),
    s.tstate = .connecting → s.waiting = true →
    connectingDelays (run s (failBlock n)).2 =
      (List.range n).map (fun k => connectWaitTime (s.attemptCount + k)) := by
  induction n with
  | zero =>
    intro s h1 h2
    simp [failBlock, run, connectingDelays]
  | succ n ih =>
    intro s h1 h2
    have hsplit :
        failBlock (n + 1) =
          [Input.waitElapses, Input.endpointFails] ++ failBlock n := rfl
    obtain ⟨hd, ht, hw, hcnt⟩ := fail_once s h1 h2
    rw [hsplit, run_append]
    simp only [connectingDelays, List.filterMap_append] at *
    rw [hd, ih _ ht hw, hcnt]
    rw [List.range_succ_eq_map]
    simp only [List.map_cons, List.map_map, Nat.add_zero,
      List.singleton_append]
    congr 1
    apply List.map_congr_left
    intro a _
    simp only [Function.comp_apply]
    congr 1
    omega

/-- C3: starting the service and failing n consecutive connect
attempts emits connecting_in delays 1, 2, 4, 8, 10, 10, and so on: the
k-th delay, counting from zero here, is min(10, max(1, 2 ^ k)); a
successful connect resets the attempt count to zero, and a connect
from count zero emits delay 1 again. -/
theorem reconnect_backoff (n : Nat) :
    connectingDelays (run init (Input.userStart :: failBlock n)).2 =
      (List.range (n + 1)).map (fun k => min 10 (max 1 (2 ^ k))) ∧
    (∀ s : Sys, s.inflight = true →
      (step s .endpointSucceeds).1.attemptCount = 0) ∧
    (∀ s : Sys, s.attemptCount = 0 → s.tstate = .disconnected →
      connectingDelays (Transport_connect s).2 = [1]) := by
  refine ⟨?_, ?_, ?_⟩
  · have hsplit : Input.userStart :: failBlock n =
        [Input.userStart] ++ failBlock n := rfl
    rw [hsplit, run_append]
    have h1 : (run init [Input.userStart]).1.tstate = .connecting := rfl
    have h2 : (run init [Input.userStart]).1.waiting = true := rfl
    have hdel := failBlock_delays n (run init [Input.userStart]).1 h1 h2
    have hcnt : (run init [Input.userStart]).1.attemptCount = 1 := rfl
    rw [hcnt] at hdel
    simp only [connectingDelays, List.filterMap_append] at *
    rw [hdel]
    have hhead : List.filterMap delayOf (run init [Input.userStart]).2 =
        [1] := rfl
    rw [hhead, List.range_succ_eq_map]
    simp only [List.map_cons, List.map_map, List.singleton_append]
    congr 1
    apply List.map_congr_left
    intro a _
    simp only [Function.comp_apply]
    rw [Nat.add_comm 1 a, connectWaitTime_eq]
  · intro s h
    simp only [step, h, if_true]
    unfold Transport_connected Transport_emit Connection_on_transport_event
      Transport_state_set
    split <;> rfl
  · intro s h0 ht
    simp [Transport_connect, ht, h0, Transport_state_set, Transport_emit,
      Connection_on_transport_event, TEvt.out, connectWaitTime_ne_zero,
      connectingDelays, List.filterMap_cons, List.filterMap_append, delayOf,
      connectingDelays_state_set, connectWaitTime]

/-- Instantiation of C3 at five consecutive failures, at a concrete
successful connect, and at a fresh connect from count zero. -/
theorem reconnect_backoff_witness :
    connectingDelays (run init (Input.userStart :: failBlock 5)).2 =
      (List.range 6).map (fun k => min 10 (max 1 (2 ^ k))) ∧
    ({ init with inflight := true } : Sys).inflight = true ∧
    (step { init with inflight := true }
      Input.endpointSucceeds).1.attemptCount = 0 ∧
    init.attemptCount = 0 ∧ init.tstate = .disconnected ∧
    connectingDelays (Transport_connect init).2 = [1] :=
  ⟨(reconnect_backoff 5).1, rfl, (reconnect_backoff 5).2.1 _ rfl,
   rfl, rfl, (reconnect_backoff 5).2.2 init rfl rfl⟩

/-- C4 (code bug): in a connected reachable state, a pusher:error whose
data is the object with code 4002 (a code in [4000, 4100) missing from
ERROR_CODES and carrying no message) only re-emits the error event:
the ERROR_CODES lookup raises KeyError, the logging fallback then
raises KeyError on the missing message, the outer handler swallows it,
and stopService is never reached, so the service keeps running.  By
contrast code 4003 emits error, then warns, then stops the service and
asks the protocol to disconnect, in that order. -/
theorem pusher_error_4002_not_fatal :
    (step (run init [Input.userStart, Input.waitElapses,
        Input.endpointSucceeds,
        Input.wire (.established (some "a") (some 120))]).1
      (Input.wire (.errorEvt (.obj [("code", .num 4002)])))).2 =
      [.emit { name := "error",
               data := some (.obj [("code", Json.num 4002)]) }] ∧
    (step (run init [Input.userStart, Input.waitElapses,
        Input.endpointSucceeds,
        Input.wire (.established (some "a") (some 120))]).1
      (Input.wire (.errorEvt (.obj [("code", .num 4002)])))).1.running
      = true ∧
    pusher_error_stops (.obj [("code", .num 4002)]) = false ∧
    (step (run init [Input.userStart, Input.waitElapses,
        Input.endpointSucceeds,
        Input.wire (.established (some "a") (some 120))]).1
      (Input.wire (.errorEvt (.obj [("code", .num 4003)])))).2 =
      [.emit { name := "error",
               data := some (.obj [("code", Json.num 4003)]) },
       .warned, .stopped, .protoDisconnect] ∧
    (step (run init [Input.userStart, Input.waitElapses,
        Input.endpointSucceeds,
        Input.wire (.established (some "a") (some 120))]).1
      (Input.wire (.errorEvt (.obj [("code", .num 4003)])))).1.running
      = false :=
  ⟨rfl, rfl, rfl, rfl, rfl⟩

/-- The Connection state setter never touches socket_id. -/
theorem state_set_sock (s : Sys) (t : CState) :
    (Connection_state_set s t).1.socketId = s.socketId := by
  unfold Connection_state_set
  split <;> rfl

/-- After the Connection state setter the state is the assigned one. -/
theorem state_set_cstate (s : Sys) (t : CState) :
    (Connection_state_set s t).1.cstate = t := by
  unfold Connection_state_set
  split
  · rfl
  · next h =>
    simp only [ne_eq, not_not] at h
    exact h.symm

/-- The transport event handler never touches socket_id. -/
theorem cote_sock (s : Sys) (e : TEvt) :
    (Connection_on_transport_event s e).1.socketId = s.socketId := by
  cases e <;>
    simp only [Connection_on_transport_event] <;>
    first
    | simp [state_set_sock]
    | (split <;> simp [state_set_sock])

/-- The transport event handler never sets the connected state. -/
theorem cote_cstate (s : Sys) (e : TEvt) :
    (Connection_on_transport_event s e).1.cstate = .connected →
      s.cstate = .connected := by
  cases e <;>
    simp only [Connection_on_transport_event] <;>
    first
    | (intro h; exact h)
    | simp [state_set_cstate]
    | (split <;> simp [state_set_cstate])

/-- Transport.emit_event never touches socket_id. -/
theorem temit_sock (s : Sys) (e : TEvt) :
    (Transport_emit s e).1.socketId = s.socketId := by
  simp [Transport_emit, cote_sock]

/-- Transport.emit_event never sets the connected Connection state. -/
theorem temit_cstate (s : Sys) (e : TEvt) :
    (Transport_emit s e).1.cstate = .connected → s.cstate = .connected := by
  simp only [Transport_emit]
  exact cote_cstate s e

/-- Transport._connect never touches socket_id. -/
theorem tconnect_sock (s : Sys) :
    (Transport_connect s).1.socketId = s.socketId := by
  unfold Transport_connect Transport_emit Connection_on_transport_event
  split_ifs <;>
    simp_all [Transport_state_set, Connection_state_set] <;>
    split_ifs <;> simp_all

/-- Transport._connect never sets the connected Connection state. -/
theorem tconnect_cstate (s : Sys)
    (h : (Transport_connect s).1.cstate = .connected) :
    s.cstate = .connected := by
  revert h
  unfold Transport_connect Transport_emit Connection_on_transport_event
  split_ifs <;>
    simp_all [Transport_state_set, Connection_state_set] <;>
    split_ifs <;> simp_all

/-- The Transport state setter never touches socket_id. -/
theorem tss_sock (s : Sys) (t : TState) :
    (Transport_state_set s t).socketId = s.socketId := by
  unfold Transport_state_set
  split <;> rfl

/-- The Transport state setter never touches the Connection state. -/
theorem tss_cstate (s : Sys) (t : TState) :
    (Transport_state_set s t).cstate = s.cstate := by
  unfold Transport_state_set
  split <;> rfl

/-- Transport._connected never touches socket_id. -/
theorem tconnected_sock (s : Sys) :
    (Transport_connected s).1.socketId = s.socketId := by
  unfold Transport_connected Transport_emit Connection_on_transport_event
    Transport_state_set
  split_ifs <;> rfl

/-- Transport._connected never touches the Connection state. -/
theorem tconnected_cstate (s : Sys) :
    (Transport_connected s).1.cstate = s.cstate := by
  unfold Transport_connected Transport_emit Connection_on_transport_event
    Transport_state_set
  split_ifs <;> rfl

/-- Transport._failed never touches socket_id. -/
theorem tfailed_sock (s : Sys) :
    (Transport_failed s).1.socketId = s.socketId := by
  unfold Transport_failed
  dsimp only
  split_ifs <;> simp [tconnect_sock, tss_sock]

/-- Transport._failed never sets the connected Connection state. -/
theorem tfailed_cstate (s : Sys)
    (h : (Transport_failed s).1.cstate = .connected) :
    s.cstate = .connected := by
  revert h
  unfold Transport_failed
  dsimp only
  split_ifs
  · intro h
    have h2 := tconnect_cstate _ h
    rwa [tss_cstate] at h2
  · intro h
    rwa [tss_cstate] at h

/-- Transport._lost never touches socket_id. -/
theorem tlost_sock (s : Sys) :
    (Transport_lost s).1.socketId = s.socketId := by
  unfold Transport_lost
  dsimp only
  split_ifs <;> simp [tconnect_sock, temit_sock, tss_sock]

/-- Transport._lost never sets the connected Connection state. -/
theorem tlost_cstate (s : Sys)
    (h : (Transport_lost s).1.cstate = .connected) :
    s.cstate = .connected := by
  revert h
  unfold Transport_lost
  dsimp only
  split_ifs
  · intro h
    have h2 := temit_cstate _ _ (tconnect_cstate _ h)
    rw [tss_cstate] at h2
    exact h2
  · intro h
    have h2 := temit_cstate _ _ h
    rw [tss_cstate] at h2
    exact h2

/-- Transport._disconnect never touches socket_id. -/
theorem tdisconnect_sock (s : Sys) :
    (Transport_disconnect s).1.socketId = s.socketId := by
  unfold Transport_disconnect
  dsimp only
  split_ifs <;> simp [tfailed_sock, tss_sock]

/-- Transport._disconnect never sets the connected Connection state. -/
theorem tdisconnect_cstate (s : Sys)
    (h : (Transport_disconnect s).1.cstate = .connected) :
    s.cstate = .connected := by
  revert h
  unfold Transport_disconnect
  dsimp only
  split_ifs <;> intro h <;>
    first
    | (rwa [tss_cstate] at h)
    | (have h2 := tfailed_cstate _ h; simpa [tss_cstate] using h2)

/-- stopService never touches socket_id. -/
theorem stop_sock (s : Sys) :
    (Connection_stopService s).1.socketId = s.socketId := by
  simp [Connection_stopService, tdisconnect_sock]

/-- stopService never sets the connected Connection state. -/
theorem stop_cstate (s : Sys)
    (h : (Connection_stopService s).1.cstate = .connected) :
    s.cstate = .connected := by
  simp only [Connection_stopService] at h
  have h2 := tdisconnect_cstate _ h
  simpa using h2

set_option maxHeartbeats 1000000 in
/-- One step preserves the socket invariant: while every delivered
connection_established carries a non-empty socket_id, a connected
Connection has a non-empty socket_id. -/
theorem sock_step (s : Sys) (i : Input) (hg : goodSid i = true)
    (hP : s.cstate = .connected → s.socketId ≠ "") :
    (step s i).1.cstate = .connected → (step s i).1.socketId ≠ "" := by
  cases i with
  | userStart =>
    intro h
    simp only [step, Connection_startService] at h ⊢
    rw [tconnect_sock]
    have h2 := tconnect_cstate _ h
    exact hP (by simpa using h2)
  | userStop =>
    intro h
    simp only [step] at h ⊢
    rw [stop_sock]
    exact hP (stop_cstate _ h)
  | waitElapses =>
    simp only [step]
    split_ifs <;> simp_all [Transport_do_connect]
  | endpointSucceeds =>
    simp only [step]
    split_ifs with hc
    · intro h
      rw [tconnected_sock]
      rw [tconnected_cstate] at h
      exact hP (by simpa using h)
    · exact hP
  | endpointFails =>
    simp only [step]
    split_ifs with hc
    · intro h
      rw [tfailed_sock]
      have h2 := tfailed_cstate _ h
      exact hP (by simpa using h2)
    · exact hP
  | connectionLost =>
    simp only [step]
    split_ifs with hc
    · intro h
      rw [tlost_sock]
      exact hP (tlost_cstate _ h)
    · exact hP
  | attemptTimerFires =>
    simp only [step]
    split_ifs with hc
    · intro h
      rw [tdisconnect_sock]
      have h2 := tdisconnect_cstate _ h
      exact hP (by simpa using h2)
    · exact hP
  | activityFires =>
    simp only [step]
    split_ifs <;> simp_all [Connection_keepalive]
  | pongFires =>
    simp only [step]
    split_ifs with hc
    · intro h
      rw [tdisconnect_sock]
      have h2 := tdisconnect_cstate _ h
      exact hP (by simpa using h2)
    · exact hP
  | unavailFires =>
    simp only [step]
    split_ifs with hc
    · intro h
      rw [state_set_cstate] at h
      exact absurd h (by simp)
    · exact hP
  | wire e =>
    simp only [step]
    split_ifs with hc
    · cases e with
      | channelEvt n c d => exact hP
      | established sid at2 =>
        cases sid with
        | none => simp_all [Connection_on_event]
        | some v =>
          simp only [Connection_on_event]
          intro h
          rw [state_set_sock]
          simp only [goodSid, bne_iff_ne, ne_eq] at hg
          simpa using hg
      | errorEvt d =>
        simp only [Connection_on_event, Connection_error]
        split_ifs with hstop
        · intro h
          rw [stop_sock]
          exact hP (stop_cstate _ h)
        · exact hP
      | ping => exact hP
      | pong => exact hP
      | other n d => exact hP
    · exact hP

/-- The socket invariant holds along every run whose established
events carry non-empty socket ids. -/
theorem sock_run (l : List Input) : ∀ (s : Sys),
    (∀ i ∈ l, goodSid i = true) →
    (s.cstate = .connected → s.socketId ≠ "") →
    ((run s l).1.cstate = .connected → (run s l).1.socketId ≠ "") := by
  induction l with
  | nil => intro s _ hP; exact hP
  | cons i rest ih =>
    intro s hg hP
    simp only [run]
    exact ih (step s i).1 (fun j hj => hg j (List.mem_cons_of_mem i hj))
      (sock_step s i (hg i (List.mem_cons_self i rest)) hP)

/-- C5 (amended): along every run in which each delivered
pusher:connection_established carries a non-empty socket_id, a
Connection in the connected state has a non-empty socket_id.  The
converse direction of the claim and the clearing on non-connected
transitions do not hold: socket_id is never cleared. -/
theorem socket_id_nonempty_when_connected (inputs : List Input)
    (hg : ∀ i ∈ inputs, goodSid i = true)
    (hc : (run init inputs).1.cstate = .connected) :
    (run init inputs).1.socketId ≠ "" := by
  refine sock_run inputs init hg ?_ hc
  intro h
  exact absurd h (by simp [init])

/-- C5 (counterexample): after connecting, receiving the established
event with socket_id a, and losing the connection, the reachable state
has state connecting while socket_id is still "a": socket_id is
non-empty in a non-connected state, and the transition away from
connected did not clear it. -/
theorem socket_id_counterexample :
    Reachable (run init [Input.userStart, Input.waitElapses,
      Input.endpointSucceeds,
      Input.wire (.established (some "a") (some 120)),
      Input.connectionLost]).1 ∧
    (run init [Input.userStart, Input.waitElapses, Input.endpointSucceeds,
      Input.wire (.established (some "a") (some 120)),
      Input.connectionLost]).1.cstate = .connecting ∧
    (run init [Input.userStart, Input.waitElapses, Input.endpointSucceeds,
      Input.wire (.established (some "a") (some 120)),
      Input.connectionLost]).1.socketId = "a" ∧
    "a" ≠ "" :=
  ⟨⟨_, rfl⟩, rfl, rfl, by decide⟩

/-- Instantiation of the amended C5 along a concrete connecting run. -/
theorem socket_id_nonempty_when_connected_witness :
    (∀ i ∈ [Input.userStart, Input.waitElapses, Input.endpointSucceeds,
      Input.wire (.established (some "a") (some 120))], goodSid i = true) ∧
    (run init [Input.userStart, Input.waitElapses, Input.endpointSucceeds,
      Input.wire (.established (some "a") (some 120))]).1.cstate
      = .connected ∧
    (run init [Input.userStart, Input.waitElapses, Input.endpointSucceeds,
      Input.wire (.established (some "a") (some 120))]).1.socketId ≠ "" :=
  ⟨by decide, rfl,
   socket_id_nonempty_when_connected _ (by decide) rfl⟩

/-- The transport state after the Transport state setter. -/
theorem tss_tstate (s : Sys) (t : TState) :
    (Transport_state_set s t).tstate = t := by
  unfold Transport_state_set
  split
  · rfl
  · next h =>
    simp only [ne_eq, not_not] at h
    exact h.symm

/-- The attempt count is untouched by the Transport state setter. -/
theorem tss_count (s : Sys) (t : TState) :
    (Transport_state_set s t).attemptCount = s.attemptCount := by
  unfold Transport_state_set
  split <;> rfl

/-- The waiting flag is untouched by the Transport state setter. -/
theorem tss_waiting (s : Sys) (t : TState) :
    (Transport_state_set s t).waiting = s.waiting := by
  unfold Transport_state_set
  split <;> rfl

/-- The inflight flag is untouched by the Transport state setter. -/
theorem tss_inflight (s : Sys) (t : TState) :
    (Transport_state_set s t).inflight = s.inflight := by
  unfold Transport_state_set
  split <;> rfl

/-- The protocol flag is untouched by the Transport state setter. -/
theorem tss_hasProto (s : Sys) (t : TState) :
    (Transport_state_set s t).hasProto = s.hasProto := by
  unfold Transport_state_set
  split <;> rfl

/-- The running flag is untouched by the Transport state setter. -/
theorem tss_running (s : Sys) (t : TState) :
    (Transport_state_set s t).running = s.running := by
  unfold Transport_state_set
  split <;> rfl

/-- The activity flag is untouched by the Transport state setter. -/
theorem tss_activity (s : Sys) (t : TState) :
    (Transport_state_set s t).activityActive = s.activityActive := by
  unfold Transport_state_set
  split <;> rfl

/-- The transport state is untouched by the Connection state setter. -/
theorem css_tstate (s : Sys) (t : CState) :
    (Connection_state_set s t).1.tstate = s.tstate := by
  unfold Connection_state_set
  split <;> rfl

/-- The waiting flag is untouched by the Connection state setter. -/
theorem css_waiting (s : Sys) (t : CState) :
    (Connection_state_set s t).1.waiting = s.waiting := by
  unfold Connection_state_set
  split <;> rfl

/-- The inflight flag is untouched by the Connection state setter. -/
theorem css_inflight (s : Sys) (t : CState) :
    (Connection_state_set s t).1.inflight = s.inflight := by
  unfold Connection_state_set
  split <;> rfl

/-- The protocol flag is untouched by the Connection state setter. -/
theorem css_hasProto (s : Sys) (t : CState) :
    (Connection_state_set s t).1.hasProto = s.hasProto := by
  unfold Connection_state_set
  split <;> rfl

/-- The running flag is untouched by the Connection state setter. -/
theorem css_running (s : Sys) (t : CState) :
    (Connection_state_set s t).1.running = s.running := by
  unfold Connection_state_set
  split <;> rfl

/-- The attempt count is untouched by the Connection state setter. -/
theorem css_count (s : Sys) (t : CState) :
    (Connection_state_set s t).1.attemptCount = s.attemptCount := by
  unfold Connection_state_set
  split <;> rfl

/-- The activity flag is untouched by the Connection state setter. -/
theorem css_activity (s : Sys) (t : CState) :
    (Connection_state_set s t).1.activityActive = s.activityActive := by
  unfold Connection_state_set
  split <;> rfl

/-- A pending attempt forces the transport into connecting, so any
other transport state has both attempt flags down. -/
theorem flags_false (s : Sys) (h : SysInvCore s)
    (ht : s.tstate ≠ TState.connecting) :
    s.waiting = false ∧ s.inflight = false := by
  cases hw : s.waiting
  · cases hi : s.inflight
    · exact ⟨rfl, rfl⟩
    · exact absurd (h.pend_t (Or.inr hi)) ht
  · exact absurd (h.pend_t (Or.inl hw)) ht

/-- A nonzero attempt count forces a live Connection state. -/
theorem live_of_count (s : Sys) (h : SysInvCore s)
    (hc : s.attemptCount ≠ 0) : liveC s.cstate := by
  refine ⟨h.count_c hc, ?_⟩
  intro hd
  exact hc (h.cdisc_count hd)

/-- Transport._connect is a no-op unless the transport is
disconnected. -/
theorem tconnect_noop (s : Sys) (ht : s.tstate ≠ TState.disconnected) :
    Transport_connect s = (s, []) := by
  unfold Transport_connect
  rw [if_neg ht]

/-- Normal form of the Transport state setter as a record update. -/
theorem tss_result (s : Sys) (t : TState) :
    Transport_state_set s t =
      { s with tstate := t,
               tprev := if t ≠ s.tstate then s.tstate else s.tprev } := by
  unfold Transport_state_set
  split_ifs with h <;> simp_all

/-- Normal form of the Connection state setter as a record update. -/
theorem state_set_result (s : Sys) (t : CState) :
    (Connection_state_set s t).1 =
      { s with cstate := t,
               cprev := if t ≠ s.cstate then s.cstate else s.cprev } := by
  unfold Connection_state_set
  split_ifs with h <;> simp_all

/-- Normal form of the state after an effective Transport._connect. -/
theorem tconnect_result (s : Sys) (htd : s.tstate = TState.disconnected) :
    (Transport_connect s).1 =
      if s.attemptCount = 0 then
        { s with tstate := .connecting, tprev := s.tstate,
                 cstate := .connecting,
                 cprev := if CState.connecting ≠ s.cstate then s.cstate
                          else s.cprev,
                 unavailActive := true, attemptCount := s.attemptCount + 1,
                 waiting := true }
      else
        { s with tstate := .connecting, tprev := s.tstate,
                 attemptCount := s.attemptCount + 1, waiting := true } := by
  unfold Transport_connect Transport_emit Connection_on_transport_event
  rw [if_pos htd]
  dsimp only
  rw [if_pos (connectWaitTime_ne_zero _)]
  simp only [tss_result, state_set_result, htd]
  split_ifs <;> simp_all

/-- An effective Transport._connect from a clean disconnected transport
reestablishes the invariant. -/
theorem tconnect_inv (s : Sys) (htd : s.tstate = TState.disconnected)
    (hf : s.waiting = false) (hi : s.inflight = false)
    (hp : s.hasProto = false) (hr : s.running = true)
    (hlc : s.attemptCount ≠ 0 → liveC s.cstate) :
    SysInv (Transport_connect s).1 := by
  rw [tconnect_result s htd]
  by_cases hc : s.attemptCount = 0
  · rw [if_pos hc]
    refine ⟨⟨?_, ?_, ?_, ?_, ?_, ?_, ?_, ?_, ?_, ?_, ?_⟩, ?_, ?_⟩ <;>
      simp [liveC, hf, hi, hp, hr]
  · rw [if_neg hc]
    have hlive := hlc hc
    refine ⟨⟨?_, ?_, ?_, ?_, ?_, ?_, ?_, ?_, ?_, ?_, ?_⟩, ?_, ?_⟩ <;>
      simp [liveC, hf, hi, hp, hr, hlive.1, hlive.2, hc]

/-- Normal form of the state after Transport._connected. -/
theorem tconnected_result (s : Sys) :
    (Transport_connected s).1 =
      { s with tstate := .connected,
               tprev := if TState.connected ≠ s.tstate then s.tstate
                        else s.tprev,
               hasProto := true, attemptCount := 0,
               attemptTimerActive := false, activityActive := true } := by
  unfold Transport_connected Transport_emit Connection_on_transport_event
  simp only [tss_result]

/-- Transport._failed reestablishes the invariant whenever the attempt
bookkeeping is already cleared. -/
theorem tfailed_inv (s : Sys) (hf : s.waiting = false)
    (hi : s.inflight = false) (hp : s.hasProto = false)
    (hlive : liveC s.cstate)
    (hrun : s.tstate ≠ TState.disconnecting → s.running = true) :
    SysInv (Transport_failed s).1 := by
  unfold Transport_failed
  dsimp only
  by_cases hold : s.tstate = TState.disconnecting
  · rw [if_neg (by simp [hold]), tss_result]
    refine ⟨⟨?_, ?_, ?_, ?_, ?_, ?_, ?_, ?_, ?_, ?_, ?_⟩, ?_, ?_⟩ <;>
      simp [liveC, hf, hi, hp, hlive.1, hlive.2]
  · rw [if_pos hold]
    refine tconnect_inv _ ?_ ?_ ?_ ?_ ?_ ?_
    · rw [tss_tstate]
    · rw [tss_waiting]; exact hf
    · rw [tss_inflight]; exact hi
    · rw [tss_hasProto]; exact hp
    · rw [tss_running]; exact hrun hold
    · intro _
      simpa [tss_result] using hlive

/-- Normal form of Transport._disconnect outside the cancel path. -/
theorem tdisconnect_result_ne (s : Sys)
    (hne : s.tstate ≠ TState.connecting) :
    (Transport_disconnect s).1 =
      { s with tstate := if s.running then .reconnecting
                         else .disconnecting,
               tprev := if (if s.running then TState.reconnecting
                            else TState.disconnecting) ≠ s.tstate
                        then s.tstate else s.tprev } := by
  unfold Transport_disconnect
  dsimp only
  simp only [tss_result]
  split_ifs <;> simp_all

/-- Transport._disconnect reestablishes the invariant from the
running-independent core. -/
theorem tdisconnect_inv (s : Sys) (h : SysInvCore s) :
    SysInv (Transport_disconnect s).1 := by
  by_cases hc : s.tstate = TState.connecting
  · have hhp : s.hasProto = false := by
      cases hhp : s.hasProto
      · rfl
      · exact absurd hc (h.proto_t hhp).1
    have hlive : liveC s.cstate := h.pend_live (h.conn_pend hc)
    unfold Transport_disconnect
    dsimp only
    rw [if_neg (by simp [hc]), if_pos hc]
    apply tfailed_inv
    · rfl
    · rfl
    · simp [tss_result, hhp]
    · simpa [tss_result] using hlive
    · intro hx
      by_cases hr : s.running = true
      · simpa [tss_running] using hr
      · simp only [Bool.not_eq_true] at hr
        exfalso
        apply hx
        simp [tss_result, hr]
  · rw [tdisconnect_result_ne s hc]
    have hfl := flags_false s h hc
    refine ⟨⟨?_, ?_, ?_, ?_, ?_, ?_, ?_, ?_, ?_, ?_, ?_⟩, ?_, ?_⟩
    · exact h.act_live
    · exact h.proto_live
    · simp [hfl.1, hfl.2]
    · intro _
      exact hfl
    · intro _
      split_ifs <;> simp
    · exact h.proto_count
    · exact h.cdisc_count
    · intro hx
      revert hx
      split_ifs <;> simp
    · simp [hfl.2]
    · simp [hfl.1, hfl.2]
    · exact h.count_c
    · intro hr _
      have hr2 : s.running = false := hr
      simp [hr2]
    · simp [hfl.1, hfl.2]

/-- Transport._lost reestablishes the invariant whenever a protocol is
stored. -/
theorem tlost_inv (s : Sys) (h : SysInv s) (hp : s.hasProto = true) :
    SysInv (Transport_lost s).1 := by
  obtain ⟨hw, hi⟩ := h.proto_no_pend hp
  have hcount := h.proto_count hp
  have hlive := h.proto_live hp
  by_cases hr : s.running = true
  · by_cases hold : s.tstate = TState.disconnecting
    · have hres : (Transport_lost s).1 =
          { s with hasProto := false, tstate := .disconnected,
                   tprev := if TState.disconnected ≠ s.tstate then s.tstate
                            else s.tprev,
                   activityActive := false, pongActive := false,
                   cstate := .connecting,
                   cprev := if CState.connecting ≠ s.cstate then s.cstate
                            else s.cprev } := by
        unfold Transport_lost Transport_emit Connection_on_transport_event
        dsimp only
        simp only [tss_result, state_set_result]
        rw [if_pos hr, if_neg (by simp [hold])]
        simp [state_set_result]
      rw [hres]
      refine ⟨⟨?_, ?_, ?_, ?_, ?_, ?_, ?_, ?_, ?_, ?_, ?_⟩, ?_, ?_⟩ <;>
        simp [liveC, hw, hi, hcount]
    · have hres : (Transport_lost s).1 =
          (Transport_connect
            { s with hasProto := false, tstate := .disconnected,
                     tprev := if TState.disconnected ≠ s.tstate then s.tstate
                              else s.tprev,
                     activityActive := false, pongActive := false,
                     cstate := .connecting,
                     cprev := if CState.connecting ≠ s.cstate then s.cstate
                              else s.cprev }).1 := by
        unfold Transport_lost Transport_emit Connection_on_transport_event
        dsimp only
        simp only [tss_result, state_set_result]
        rw [if_pos hr, if_pos hold]
        simp [state_set_result]
      rw [hres]
      refine tconnect_inv _ rfl hw hi rfl hr ?_
      intro _
      simp [liveC]
  · simp only [Bool.not_eq_true] at hr
    have hold : s.tstate = TState.disconnecting := h.stopped_proto hr hp
    have hres : (Transport_lost s).1 =
        { s with hasProto := false, tstate := .disconnected,
                 tprev := if TState.disconnected ≠ s.tstate then s.tstate
                          else s.tprev,
                 activityActive := false, pongActive := false,
                 cstate := .disconnected,
                 cprev := if CState.disconnected ≠ s.cstate then s.cstate
                          else s.cprev } := by
      unfold Transport_lost Transport_emit Connection_on_transport_event
      dsimp only
      simp only [tss_result, state_set_result]
      rw [if_neg (by simp [hr, hold]), if_neg (by simp [hr, hold])]
      simp [state_set_result]
    rw [hres]
    refine ⟨⟨?_, ?_, ?_, ?_, ?_, ?_, ?_, ?_, ?_, ?_, ?_⟩, ?_, ?_⟩ <;>
      simp [liveC, hw, hi, hcount]

/-- A stored protocol excludes a disconnected transport, so a
disconnected transport has no protocol. -/
theorem proto_false_disc (s : Sys) (h : SysInvCore s)
    (ht : s.tstate = TState.disconnected) : s.hasProto = false := by
  cases hh : s.hasProto
  · rfl
  · exact absurd ht (h.proto_t hh).2

/-- A waiting or inflight attempt excludes a stored protocol. -/
theorem proto_false_pend (s : Sys) (h : SysInvCore s)
    (hpend : s.waiting = true ∨ s.inflight = true) :
    s.hasProto = false := by
  cases hh : s.hasProto
  · rfl
  · obtain ⟨hw2, hi2⟩ := h.proto_no_pend hh
    rcases hpend with hx | hx
    · rw [hw2] at hx; exact absurd hx (by simp)
    · rw [hi2] at hx; exact absurd hx (by simp)

/-- Every reactor step preserves the inductive invariant. -/
theorem inv_step (s : Sys) (i : Input) (h : SysInv s) :
    SysInv (step s i).1 := by
  cases i with
  | userStart =>
    simp only [step, Connection_startService]
    by_cases htd : s.tstate = TState.disconnected
    · obtain ⟨hwf, hif⟩ := flags_false s h.toSysInvCore (by simp [htd])
      exact tconnect_inv _ htd hwf hif
        (proto_false_disc s h.toSysInvCore htd) rfl
        (fun hc => live_of_count s h.toSysInvCore hc)
    · rw [tconnect_noop { s with running := true } htd]
      exact ⟨⟨h.act_live, h.proto_live, h.pend_live, h.proto_no_pend,
        h.proto_t, h.proto_count, h.cdisc_count, h.conn_pend, h.not_both,
        h.pend_t, h.count_c⟩, fun hx => absurd hx (by simp),
        fun _ => rfl⟩
  | userStop =>
    simp only [step, Connection_stopService]
    exact tdisconnect_inv _ ⟨h.act_live, h.proto_live, h.pend_live,
      h.proto_no_pend, h.proto_t, h.proto_count, h.cdisc_count,
      h.conn_pend, h.not_both, h.pend_t, h.count_c⟩
  | waitElapses =>
    simp only [step]
    by_cases hw : s.waiting = true
    · rw [if_pos hw]
      have hPl := h.pend_live (Or.inl hw)
      have hp := proto_false_pend s h.toSysInvCore (Or.inl hw)
      unfold Transport_do_connect
      refine ⟨⟨h.act_live, ?_, ?_, ?_, ?_, ?_, h.cdisc_count, ?_, ?_, ?_,
        h.count_c⟩, ?_, ?_⟩
      · intro hh
        simp only at hh
        rw [hp] at hh
        exact absurd hh (by simp)
      · intro _
        exact hPl
      · intro hh
        simp only at hh
        rw [hp] at hh
        exact absurd hh (by simp)
      · intro hh
        simp only at hh
        rw [hp] at hh
        exact absurd hh (by simp)
      · intro hh
        simp only at hh
        rw [hp] at hh
        exact absurd hh (by simp)
      · intro _
        exact Or.inr rfl
      · simp
      · intro _
        exact h.pend_t (Or.inl hw)
      · intro _ hh
        simp only at hh
        rw [hp] at hh
        exact absurd hh (by simp)
      · intro _
        exact h.pend_running (Or.inl hw)
    · rw [if_neg hw]
      exact h
  | endpointSucceeds =>
    simp only [step]
    by_cases hc : s.inflight = true
    · rw [if_pos hc]
      have hlive := h.pend_live (Or.inr hc)
      have hrun := h.pend_running (Or.inr hc)
      have hwf : s.waiting = false := by
        cases hx : s.waiting
        · rfl
        · exact absurd ⟨hx, hc⟩ h.not_both
      rw [tconnected_result]
      refine ⟨⟨?_, ?_, ?_, ?_, ?_, ?_, ?_, ?_, ?_, ?_, ?_⟩, ?_, ?_⟩
      · intro _
        exact hlive
      · intro _
        exact hlive
      · simp [hwf]
      · intro _
        exact ⟨hwf, rfl⟩
      · intro _
        simp
      · intro _
        rfl
      · intro _
        rfl
      · intro hh
        exact absurd hh (by simp)
      · simp [hwf]
      · intro hh
        simp [hwf] at hh
      · intro hc2
        exact absurd rfl hc2
      · intro hrr _
        rw [hrun] at hrr
        exact absurd hrr (by simp)
      · intro _
        exact hrun
    · rw [if_neg hc]
      exact h
  | endpointFails =>
    simp only [step]
    by_cases hc : s.inflight = true
    · rw [if_pos hc]
      have hwf : s.waiting = false := by
        cases hx : s.waiting
        · rfl
        · exact absurd ⟨hx, hc⟩ h.not_both
      exact tfailed_inv _ hwf rfl
        (proto_false_pend s h.toSysInvCore (Or.inr hc))
        (h.pend_live (Or.inr hc))
        (fun _ => h.pend_running (Or.inr hc))
    · rw [if_neg hc]
      exact h
  | connectionLost =>
    simp only [step]
    by_cases hc : s.hasProto = true
    · rw [if_pos hc]
      exact tlost_inv s h hc
    · rw [if_neg hc]
      exact h
  | attemptTimerFires =>
    simp only [step]
    by_cases hc : s.attemptTimerActive = true
    · rw [if_pos hc]
      exact tdisconnect_inv _ ⟨h.act_live, h.proto_live, h.pend_live,
        h.proto_no_pend, h.proto_t, h.proto_count, h.cdisc_count,
        h.conn_pend, h.not_both, h.pend_t, h.count_c⟩
    · rw [if_neg hc]
      exact h
  | activityFires =>
    simp only [step]
    by_cases hc : s.activityActive = true
    · rw [if_pos hc]
      unfold Connection_keepalive
      refine ⟨⟨?_, h.proto_live, h.pend_live, h.proto_no_pend, h.proto_t,
        h.proto_count, h.cdisc_count, h.conn_pend, h.not_both, h.pend_t,
        h.count_c⟩, h.stopped_proto, h.pend_running⟩
      intro hh
      exact absurd hh (by simp)
    · rw [if_neg hc]
      exact h
  | pongFires =>
    simp only [step]
    by_cases hc : s.pongActive = true
    · rw [if_pos hc]
      exact tdisconnect_inv _ ⟨h.act_live, h.proto_live, h.pend_live,
        h.proto_no_pend, h.proto_t, h.proto_count, h.cdisc_count,
        h.conn_pend, h.not_both, h.pend_t, h.count_c⟩
    · rw [if_neg hc]
      exact h
  | unavailFires =>
    simp only [step]
    by_cases hc : s.unavailActive = true
    · rw [if_pos hc, state_set_result]
      refine ⟨⟨?_, ?_, ?_, h.proto_no_pend, h.proto_t, h.proto_count, ?_,
        h.conn_pend, h.not_both, h.pend_t, ?_⟩, h.stopped_proto,
        h.pend_running⟩
      · intro _
        simp [liveC]
      · intro _
        simp [liveC]
      · intro _
        simp [liveC]
      · intro hh
        exact absurd hh (by simp)
      · intro _
        simp
    · rw [if_neg hc]
      exact h
  | wire e =>
    simp only [step]
    by_cases hc : s.hasProto = true
    · rw [if_pos hc]
      cases e with
      | channelEvt n ch d =>
        exact h
      | established sid at2 =>
        cases sid with
        | none =>
          simp only [Connection_on_event]
          exact ⟨⟨h.act_live, h.proto_live, h.pend_live, h.proto_no_pend,
            h.proto_t, h.proto_count, h.cdisc_count, h.conn_pend,
            h.not_both, h.pend_t, h.count_c⟩, h.stopped_proto,
            h.pend_running⟩
        | some v =>
          simp only [Connection_on_event]
          rw [state_set_result]
          refine ⟨⟨?_, ?_, ?_, h.proto_no_pend, h.proto_t, h.proto_count,
            ?_, h.conn_pend, h.not_both, h.pend_t, ?_⟩, h.stopped_proto,
            h.pend_running⟩
          · intro _
            simp [liveC]
          · intro _
            simp [liveC]
          · intro _
            simp [liveC]
          · intro hh
            exact absurd hh (by simp)
          · intro _
            simp
      | errorEvt d =>
        simp only [Connection_on_event, Connection_error]
        by_cases hstop : pusher_error_stops d = true
        · rw [if_pos hstop]
          dsimp only
          simp only [Connection_stopService]
          exact tdisconnect_inv _ ⟨h.act_live, h.proto_live, h.pend_live,
            h.proto_no_pend, h.proto_t, h.proto_count, h.cdisc_count,
            h.conn_pend, h.not_both, h.pend_t, h.count_c⟩
        · rw [if_neg hstop]
          exact h
      | ping =>
        exact h
      | pong =>
        simp only [Connection_on_event]
        refine ⟨⟨?_, h.proto_live, h.pend_live, h.proto_no_pend, h.proto_t,
          h.proto_count, h.cdisc_count, h.conn_pend, h.not_both, h.pend_t,
          h.count_c⟩, h.stopped_proto, h.pend_running⟩
        intro _
        exact h.proto_live hc
      | other n d =>
        exact h
    · rw [if_neg hc]
      exact h

/-- The freshly constructed system satisfies the invariant. -/
theorem inv_init : SysInv init := by
  refine ⟨⟨?_, ?_, ?_, ?_, ?_, ?_, ?_, ?_, ?_, ?_, ?_⟩, ?_, ?_⟩ <;>
    simp [init, liveC]

/-- The invariant holds along every run. -/
theorem inv_run (l : List Input) : ∀ s : Sys, SysInv s →
    SysInv (run s l).1 := by
  induction l with
  | nil => intro s h; exact h
  | cons i rest ih =>
    intro s h
    simp only [run]
    exact ih (step s i).1 (inv_step s i h)

/-- Every reachable state satisfies the inductive invariant. -/
theorem reachable_inv (s : Sys) (h : Reachable s) : SysInv s := by
  obtain ⟨l, rfl⟩ := h
  exact inv_run l init inv_init

/-- C2 (amended): in every reachable state, an active activity_timeout
implies the Connection state is connecting, connected, or unavailable
(never initialized or disconnected).  The timer is started by the
transport-level connected event, before the Pusher handshake
completes, so the state need not be connected. -/
theorem activity_timer_state (s : Sys) (hr : Reachable s)
    (ha : s.activityActive = true) :
    s.cstate = .connecting ∨ s.cstate = .connected ∨
      s.cstate = .unavailable := by
  have hl := (reachable_inv s hr).act_live ha
  cases hcs : s.cstate <;> simp_all [liveC]

/-- C2 (counterexample): right after the transport-level connect
succeeds, before pusher:connection_established arrives, the reachable
state has the activity timer running while the Connection state is
still connecting, not connected. -/
theorem activity_timer_counterexample :
    Reachable (run init [Input.userStart, Input.waitElapses,
      Input.endpointSucceeds]).1 ∧
    (run init [Input.userStart, Input.waitElapses,
      Input.endpointSucceeds]).1.activityActive = true ∧
    (run init [Input.userStart, Input.waitElapses,
      Input.endpointSucceeds]).1.cstate = .connecting ∧
    CState.connecting ≠ CState.connected :=
  ⟨⟨_, rfl⟩, rfl, rfl, by decide⟩

/-- Instantiation of the amended C2 at a concrete reachable state. -/
theorem activity_timer_state_witness :
    Reachable (run init [Input.userStart, Input.waitElapses,
      Input.endpointSucceeds,
      Input.wire (.established (some "a") (some 120))]).1 ∧
    (run init [Input.userStart, Input.waitElapses, Input.endpointSucceeds,
      Input.wire (.established (some "a") (some 120))]).1.activityActive
      = true ∧
    ((run init [Input.userStart, Input.waitElapses, Input.endpointSucceeds,
        Input.wire (.established (some "a") (some 120))]).1.cstate
        = .connecting ∨
      (run init [Input.userStart, Input.waitElapses, Input.endpointSucceeds,
        Input.wire (.established (some "a") (some 120))]).1.cstate
        = .connected ∨
      (run init [Input.userStart, Input.waitElapses, Input.endpointSucceeds,
        Input.wire (.established (some "a") (some 120))]).1.cstate
        = .unavailable) :=
  ⟨⟨_, rfl⟩, rfl, activity_timer_state _ ⟨_, rfl⟩ rfl⟩

/-- Looking up data is unaffected by the event-to-name renaming of
load_pusher_event. -/
theorem dget_rename (fields : PyDict) (v : Json) (k : String)
    (hk1 : k ≠ "name") (hk2 : k ≠ "event") :
    dget (dset (ddel fields "event") "name" v) k = dget fields k := by
  rw [dget_dset_ne _ _ hk1, dget_ddel_ne _ hk2]

/-- The renamed dict of load_pusher_event holds the name. -/
theorem dget_rename_name (fields : PyDict) (v : Json) :
    dget (dset (ddel fields "event") "name" v) "name" = some v :=
  dget_dset_self _ _ _

/-- C7 (amended): the error classification of load_pusher_event.  An
unparseable raw string (such as the empty string) raises ValueError; a
JSON parse that is not an object raises TypeError, not a value error;
an object without the event key raises BadEventNameError (a ValueError
subclass); an object whose event value is not a string raises
AttributeError; a pusher-prefixed name whose string data fails the
re-parse raises ValueError; every other object input with a string
event value loads normally. -/
theorem load_error_classification (parse : String → Option Json) :
    (∀ raw, parse raw = none →
      load_pusher_event_raw parse raw = .error .valueError) ∧
    (∀ j : Json, (∀ fs, j ≠ .obj fs) →
      load_pusher_event parse j = .error .typeError) ∧
    (∀ fields, dget fields "event" = none →
      load_pusher_event parse (.obj fields) = .error .badEventName) ∧
    (∀ fields v, dget fields "event" = some v → (∀ x, v ≠ .str x) →
      load_pusher_event parse (.obj fields) = .error .attributeError) ∧
    (∀ fields n s2, dget fields "event" = some (.str n) →
      isPusherName n = true → dget fields "data" = some (.str s2) →
      parse s2 = none →
      load_pusher_event parse (.obj fields) = .error .valueError) ∧
    (∀ fields n, dget fields "event" = some (.str n) →
      (isPusherName n = true →
        ∀ s2, dget fields "data" = some (.str s2) → (parse s2).isSome) →
      ∃ e, load_pusher_event parse (.obj fields) = .ok e) := by
  refine ⟨?_, ?_, ?_, ?_, ?_, ?_⟩
  · intro raw hr
    simp [load_pusher_event_raw, hr]
  · intro j hj
    cases j <;> simp [load_pusher_event]
    exact absurd rfl (hj _)
  · intro fields hf
    simp [load_pusher_event, hf]
  · intro fields v hv hnx
    cases v <;>
      first
      | exact absurd rfl (hnx _)
      | simp [load_pusher_event, hv]
  · intro fields n s2 hv hpn hd hp
    have hd2 : dget (dset (ddel fields "event") "name" (.str n)) "data" =
        some (.str s2) := by
      rw [dget_rename _ _ _ (by decide) (by decide)]
      exact hd
    simp [load_pusher_event, hv, hpn, hd2, hp]
  · intro fields n hv hside
    have he := dget_rename fields (.str n) "data" (by decide) (by decide)
    by_cases hpn : isPusherName n = true
    · revert hside
      cases hd2 : dget fields "data" with
      | none =>
        intro _
        simp [load_pusher_event, hv, hpn, he, hd2]
      | some d =>
        intro hside2
        rcases d with _ | b | m | s2 | xs | fs
        · simp [load_pusher_event, hv, hpn, he, hd2]
        · simp [load_pusher_event, hv, hpn, he, hd2]
        · simp [load_pusher_event, hv, hpn, he, hd2]
        · obtain ⟨d2, hp2⟩ :=
            Option.isSome_iff_exists.mp (hside2 hpn s2 rfl)
          simp [load_pusher_event, hv, hpn, he, hd2, hp2]
        · simp [load_pusher_event, hv, hpn, he, hd2]
        · simp [load_pusher_event, hv, hpn, he, hd2]
    · revert hside
      cases hd2 : dget fields "data" with
      | none =>
        intro _
        simp [load_pusher_event, hv, hpn, he, hd2]
      | some d =>
        intro _
        simp [load_pusher_event, hv, hpn, he, hd2]

/-- C7 (counterexample): a JSON parse that is not an object fails with
TypeError rather than a value error, and an object whose event value
is not a string fails with AttributeError rather than loading. -/
theorem load_error_counterexample :
    load_pusher_event parse0 (.num 5) = .error .typeError ∧
    PyErr.typeError ≠ PyErr.valueError ∧
    load_pusher_event parse0 (.obj [("event", .num 5)]) =
      .error .attributeError :=
  ⟨rfl, by decide, rfl⟩

/-- Instantiation of the amended C7 at concrete inputs for each
classification branch. -/
theorem load_error_classification_witness :
    (parse0 "" = none ∧
      load_pusher_event_raw parse0 "" = .error .valueError) ∧
    ((∀ fs, Json.num 5 ≠ .obj fs) ∧
      load_pusher_event parse0 (.num 5) = .error .typeError) ∧
    (dget [("data", Json.num 1)] "event" = none ∧
      load_pusher_event parse0 (.obj [("data", Json.num 1)]) =
        .error .badEventName) ∧
    (dget [("event", Json.num 5)] "event" = some (.num 5) ∧
      load_pusher_event parse0 (.obj [("event", Json.num 5)]) =
        .error .attributeError) ∧
    (isPusherName "pusher:x" = true ∧ parse0 "z" = none ∧
      load_pusher_event parse0
        (.obj [("event", Json.str "pusher:x"), ("data", Json.str "z")]) =
        .error .valueError) ∧
    (∃ e, load_pusher_event parse0 (.obj [("event", Json.str "hello")]) =
      .ok e) :=
  ⟨⟨rfl, (load_error_classification parse0).1 "" rfl⟩,
   ⟨fun fs => by simp,
    (load_error_classification parse0).2.1 _ (fun fs => by simp)⟩,
   ⟨rfl, (load_error_classification parse0).2.2.1 _ rfl⟩,
   ⟨rfl, (load_error_classification parse0).2.2.2.1 _ _ rfl
      (fun x => by simp)⟩,
   ⟨by decide, rfl, (load_error_classification parse0).2.2.2.2.1 _ _ "z"
      rfl (by decide) rfl rfl⟩,
   (load_error_classification parse0).2.2.2.2.2 _ "hello" rfl
      (fun hx => absurd hx (by decide))⟩

/-- A successful load names the event after the event field. -/
theorem load_ok_name (parse : String → Option Json) (fields : PyDict)
    (n : String) (e : PyDict)
    (hv : dget fields "event" = some (.str n))
    (hok : load_pusher_event parse (.obj fields) = .ok e) :
    dget e "name" = some (.str n) := by
  revert hok
  have he := dget_rename fields (.str n) "data" (by decide) (by decide)
  by_cases hpn : isPusherName n = true
  · cases hd2 : dget fields "data" with
    | none =>
      intro hok
      simp [load_pusher_event, hv, hpn, he, hd2] at hok
      subst hok
      rw [dget_dset_ne _ _ (by decide)]
      exact dget_rename_name _ _
    | some d =>
      rcases d with _ | b | m | s2 | xs | fs
      · intro hok
        simp [load_pusher_event, hv, hpn, he, hd2] at hok
        subst hok
        exact dget_rename_name _ _
      · intro hok
        simp [load_pusher_event, hv, hpn, he, hd2] at hok
        subst hok
        exact dget_rename_name _ _
      · intro hok
        simp [load_pusher_event, hv, hpn, he, hd2] at hok
        subst hok
        exact dget_rename_name _ _
      · cases hp : parse s2 with
        | none =>
          intro hok
          simp [load_pusher_event, hv, hpn, he, hd2, hp] at hok
        | some d2 =>
          intro hok
          simp [load_pusher_event, hv, hpn, he, hd2, hp] at hok
          subst hok
          rw [dget_dset_ne _ _ (by decide)]
          exact dget_rename_name _ _
      · intro hok
        simp [load_pusher_event, hv, hpn, he, hd2] at hok
        subst hok
        exact dget_rename_name _ _
      · intro hok
        simp [load_pusher_event, hv, hpn, he, hd2] at hok
        subst hok
        exact dget_rename_name _ _
  · cases hd2 : dget fields "data" with
    | none =>
      intro hok
      simp [load_pusher_event, hv, hpn, he, hd2] at hok
      subst hok
      rw [dget_dset_ne _ _ (by decide)]
      exact dget_rename_name _ _
    | some d =>
      intro hok
      simp [load_pusher_event, hv, hpn, he, hd2] at hok
      subst hok
      exact dget_rename_name _ _

/-- Load on a non-pusher event name keeps the data field as-is. -/
theorem load_nonpusher (parse : String → Option Json) (fields : PyDict)
    (n : String) (d : Json)
    (hv : dget fields "event" = some (.str n))
    (hpn : isPusherName n = false)
    (hd : dget fields "data" = some d) :
    load_pusher_event parse (.obj fields) =
      .ok (dset (ddel fields "event") "name" (.str n)) := by
  have he := dget_rename fields (.str n) "data" (by decide) (by decide)
  simp [load_pusher_event, hv, hpn, he, hd]

/-- Load on a pusher event name with string data re-parses the data. -/
theorem load_pusher_str (parse : String → Option Json) (fields : PyDict)
    (n s2 : String) (d2 : Json)
    (hv : dget fields "event" = some (.str n))
    (hpn : isPusherName n = true)
    (hd : dget fields "data" = some (.str s2))
    (hp : parse s2 = some d2) :
    load_pusher_event parse (.obj fields) =
      .ok (dset (dset (ddel fields "event") "name" (.str n)) "data" d2) := by
  have he := dget_rename fields (.str n) "data" (by decide) (by decide)
  simp [load_pusher_event, hv, hpn, he, hd, hp]

/-- Load on a pusher event name with non-string data keeps it as-is. -/
theorem load_pusher_nonstr (parse : String → Option Json) (fields : PyDict)
    (n : String) (d : Json)
    (hv : dget fields "event" = some (.str n))
    (hpn : isPusherName n = true)
    (hd : dget fields "data" = some d)
    (hns : ∀ s, d ≠ .str s) :
    load_pusher_event parse (.obj fields) =
      .ok (dset (ddel fields "event") "name" (.str n)) := by
  have he := dget_rename fields (.str n) "data" (by decide) (by decide)
  rcases d with _ | b | m | s | xs | fs
  · simp [load_pusher_event, hv, hpn, he, hd]
  · simp [load_pusher_event, hv, hpn, he, hd]
  · simp [load_pusher_event, hv, hpn, he, hd]
  · exact absurd rfl (hns s)
  · simp [load_pusher_event, hv, hpn, he, hd]
  · simp [load_pusher_event, hv, hpn, he, hd]

/-- C6 (amended): (1) for a JSON object whose event field is a STRING n,
load either fails with ValueError (failed re-parse of pusher control
data) or returns an Event named n; (2) an Event with a non-empty string
name, TRUTHY data, and every channel value truthy round-trips through
serialize then load, preserving name and channel, and preserving data
except that string data of a pusher-prefixed event is re-parsed (the
hypothesis asks the re-parse to succeed).  The original claim fails for
non-string event values, for falsy data, and for falsy channel values. -/
theorem codec_round_trip (parse : String → Option Json) :
    (∀ fields n, dget fields "event" = some (.str n) →
      (load_pusher_event parse (.obj fields) = .error .valueError ∨
        ∃ e, load_pusher_event parse (.obj fields) = .ok e) ∧
      (∀ e, load_pusher_event parse (.obj fields) = .ok e →
        dget e "name" = some (.str n))) ∧
    (∀ e n d,
      dget e "name" = some (.str n) → n ≠ "" →
      dget e "data" = some d → truthy d = true →
      (∀ v, dget e "channel" = some v → truthy v = true) →
      (isPusherName n = true → ∀ s2, d = .str s2 → (parse s2).isSome = true) →
      ∃ j e2, serialize_pusher_event e = .ok j ∧
        load_pusher_event parse j = .ok e2 ∧
        dget e2 "name" = some (.str n) ∧
        dget e2 "channel" = dget e "channel" ∧
        ((isPusherName n = false ∨ ∀ s2, d ≠ .str s2) →
          dget e2 "data" = some d) ∧
        (∀ s2 d2, d = .str s2 → parse s2 = some d2 →
          isPusherName n = true → dget e2 "data" = some d2)) := by
  constructor
  · intro fields n hv
    have he := dget_rename fields (.str n) "data" (by decide) (by decide)
    constructor
    · cases hpn : isPusherName n with
      | true =>
        cases hd2 : dget fields "data" with
        | none => right; simp [load_pusher_event, hv, hpn, he, hd2]
        | some d =>
          rcases d with _ | b | m | s2 | xs | fs
          · right; simp [load_pusher_event, hv, hpn, he, hd2]
          · right; simp [load_pusher_event, hv, hpn, he, hd2]
          · right; simp [load_pusher_event, hv, hpn, he, hd2]
          · cases hp : parse s2 with
            | none => left; simp [load_pusher_event, hv, hpn, he, hd2, hp]
            | some d2 =>
              right; simp [load_pusher_event, hv, hpn, he, hd2, hp]
          · right; simp [load_pusher_event, hv, hpn, he, hd2]
          · right; simp [load_pusher_event, hv, hpn, he, hd2]
      | false =>
        cases hd2 : dget fields "data" with
        | none => right; simp [load_pusher_event, hv, hpn, he, hd2]
        | some d => right; simp [load_pusher_event, hv, hpn, he, hd2]
    · exact fun e => load_ok_name parse fields n e hv
  · intro e n d hn hne hd ht hch hre
    have htn : truthy (.str n) = true := by simp [truthy, hne]
    cases hc : dget e "channel" with
    | none =>
      have hser : serialize_pusher_event e =
          .ok (.obj [("event", .str n), ("data", d)]) := by
        simp [serialize_pusher_event, hn, htn, hd, ht, hc]
      cases hpn : isPusherName n with
      | true =>
        by_cases hds : ∃ s2, d = .str s2
        · obtain ⟨s2, rfl⟩ := hds
          cases hp : parse s2 with
          | none => exact absurd (hre hpn s2 rfl) (by simp [hp])
          | some d2 =>
            refine ⟨_, _, hser,
              load_pusher_str parse _ n s2 d2 rfl hpn rfl hp, ?_, ?_, ?_, ?_⟩
            · rfl
            · rfl
            · intro hA
              rcases hA with h1 | h2
              · exact Bool.noConfusion h1
              · exact absurd rfl (h2 s2)
            · intro s2a d2a hdsa hpa _
              injection hdsa with h3
              subst h3
              rw [hp] at hpa
              injection hpa with h4
              subst h4
              rfl
        · have hns : ∀ s, d ≠ .str s := fun s h => hds ⟨s, h⟩
          refine ⟨_, _, hser,
            load_pusher_nonstr parse _ n d rfl hpn rfl hns, ?_, ?_, ?_, ?_⟩
          · rfl
          · rfl
          · intro _; rfl
          · intro s2 d2 hdsa _ _; exact absurd hdsa (hns s2)
      | false =>
        refine ⟨_, _, hser,
          load_nonpusher parse _ n d rfl hpn rfl, ?_, ?_, ?_, ?_⟩
        · rfl
        · rfl
        · intro _; rfl
        · intro s2 d2 _ _ hpnT
          exact Bool.noConfusion hpnT
    | some v =>
      have htv := hch v hc
      have hser : serialize_pusher_event e =
          .ok (.obj [("event", .str n), ("data", d), ("channel", v)]) := by
        simp [serialize_pusher_event, hn, htn, hd, ht, hc, htv]
      cases hpn : isPusherName n with
      | true =>
        by_cases hds : ∃ s2, d = .str s2
        · obtain ⟨s2, rfl⟩ := hds
          cases hp : parse s2 with
          | none => exact absurd (hre hpn s2 rfl) (by simp [hp])
          | some d2 =>
            refine ⟨_, _, hser,
              load_pusher_str parse _ n s2 d2 rfl hpn rfl hp, ?_, ?_, ?_, ?_⟩
            · rfl
            · rfl
            · intro hA
              rcases hA with h1 | h2
              · exact Bool.noConfusion h1
              · exact absurd rfl (h2 s2)
            · intro s2a d2a hdsa hpa _
              injection hdsa with h3
              subst h3
              rw [hp] at hpa
              injection hpa with h4
              subst h4
              rfl
        · have hns : ∀ s, d ≠ .str s := fun s h => hds ⟨s, h⟩
          refine ⟨_, _, hser,
            load_pusher_nonstr parse _ n d rfl hpn rfl hns, ?_, ?_, ?_, ?_⟩
          · rfl
          · rfl
          · intro _; rfl
          · intro s2 d2 hdsa _ _; exact absurd hdsa (hns s2)
      | false =>
        refine ⟨_, _, hser,
          load_nonpusher parse _ n d rfl hpn rfl, ?_, ?_, ?_, ?_⟩
        · rfl
        · rfl
        · intro _; rfl
        · intro s2 d2 _ _ hpnT
          exact Bool.noConfusion hpnT

/-- Counterexample to C6 as stated: an event with falsy data (the empty
object) serializes with data replaced by the empty string, so the
round-trip returns data "" instead of the original value; and an object
whose event field is the number 7 does not load to an Event named 7 but
raises AttributeError. -/
theorem codec_round_trip_counterexample :
    serialize_pusher_event [("name", Json.str "x"), ("data", Json.obj [])] =
      .ok (.obj [("event", Json.str "x"), ("data", Json.str "")]) ∧
    load_pusher_event parse0
        (.obj [("event", Json.str "x"), ("data", Json.str "")]) =
      .ok [("data", Json.str ""), ("name", Json.str "x")] ∧
    dget [("data", Json.str ""), ("name", Json.str "x")] "data" =
      some (.str "") ∧
    Json.str "" ≠ .obj [] ∧
    load_pusher_event parse0 (.obj [("event", Json.num 7)]) =
      .error .attributeError :=
  ⟨rfl, rfl, rfl, fun h => Json.noConfusion h, rfl⟩

/-- Instantiation of the amended C6 at a concrete event. -/
theorem codec_round_trip_witness :
    (∃ e, load_pusher_event parse0 (.obj [("event", Json.str "hi")]) =
      .ok e) ∧
    (∀ e, load_pusher_event parse0 (.obj [("event", Json.str "hi")]) =
        .ok e → dget e "name" = some (.str "hi")) ∧
    (∃ j e2,
      serialize_pusher_event [("name", Json.str "hi"), ("data", Json.num 3)] =
        .ok j ∧
      load_pusher_event parse0 j = .ok e2 ∧
      dget e2 "name" = some (.str "hi") ∧
      dget e2 "channel" =
        dget [("name", Json.str "hi"), ("data", Json.num 3)] "channel" ∧
      ((isPusherName "hi" = false ∨ ∀ s2, Json.num 3 ≠ .str s2) →
        dget e2 "data" = some (.num 3)) ∧
      (∀ s2 d2, Json.num 3 = .str s2 → parse0 s2 = some d2 →
        isPusherName "hi" = true → dget e2 "data" = some d2)) := by
  refine ⟨?_, ?_, ?_⟩
  · exact ((codec_round_trip parse0).1 [("event", Json.str "hi")] "hi"
      rfl).1.resolve_left (fun hL => Except.noConfusion hL)
  · exact fun e =>
      ((codec_round_trip parse0).1 [("event", Json.str "hi")] "hi" rfl).2 e
  · exact (codec_round_trip parse0).2
      [("name", Json.str "hi"), ("data", Json.num 3)] "hi" (Json.num 3)
      rfl (by decide) rfl (by decide)
      (fun v hv => Option.noConfusion hv)
      (fun hpn s2 hds => Json.noConfusion hds)
